import Mathlib

/-!
Verification development for the `bitcoin` package of rosetta-bitcoin
(`src/bitcoin/params.go`): the network-parameter registry.

The embedding below translates the registry state, the three built-in
parameter tables, and the functions `Register`, `mustRegister`,
`RegisterHDKeyID`, `HDPrivateKeyToPublicKeyID`, `IsPubKeyHashAddrID`,
`IsScriptHashAddrID`, `IStakingAddrID` and the package `init` function.

Modelling conventions:
- Go `byte` values become `Nat` (the code never arithmetically combines
  them, it only tests membership, so the 0..255 range is irrelevant).
- Go `wire.BitcoinNet` (a `uint32`) becomes `Nat`.
- Go `[4]byte` (the fixed-size HD key version arrays of `Params`) becomes
  the structure `Byte4`; Go `[]byte` slices become `List Nat`.
- Go maps used as sets (`map[...]struct\x7b\x7d`) become `List Nat` with
  membership lookup; the map `hdPrivToPubKeyIDs` becomes an association
  list where assignment prepends and lookup takes the first match, which
  models the overwrite semantics of Go map assignment.
- Go `error` results become `Option RegError` returned next to the state:
  the Go functions mutate package-level state and separately return an
  error, so each embedded function returns the (error?, new state) pair.
- Fields of `Params` that the registry never reads (genesis block and
  hash pointers, big.Int proof-of-work limits, durations, DNS seeds,
  consensus deployments, BIP heights, spork keys) are opaque external
  data and are omitted from the embedded structure; every field read by
  `Register`, plus the fields the spec claims speak about (name, magic,
  port, address-prefix bytes, HD key versions, coin type, checkpoints),
  is kept with the literal values of the source tables.
- Checkpoint hashes are created by `newHashFromStr` from hexadecimal
  string literals; the hash value itself is opaque here, so a checkpoint
  keeps the hex string. Heights are Go `int32`, embedded as `Int`.
-/

deriving instance DecidableEq for Except

/-- A 4-byte value, modelling the Go type `[4]byte`. -/
structure Byte4 where
  b0 : Nat
  b1 : Nat
  b2 : Nat
  b3 : Nat
deriving DecidableEq

/-- The slice `a[:]` of a Go `[4]byte` array `a`. -/
def Byte4.toList (b : Byte4) : List Nat :=
  [b.b0, b.b1, b.b2, b.b3]

/-- Models `copy(keyID[:], src)` into a zero-initialised `[4]byte`:
takes the first four elements, padding with zero. -/
def toByte4 (l : List Nat) : Byte4 :=
  { b0 := l.getD 0 0, b1 := l.getD 1 0, b2 := l.getD 2 0, b3 := l.getD 3 0 }

/-- A checkpoint entry: `Checkpoint` of params.go (height `int32`,
hash built from a hex string by `newHashFromStr`). -/
structure Checkpoint where
  Height : Int
  HashHex : String
deriving DecidableEq

/-- The fields of `Params` (params.go lines 114-230) that the registry
reads or that the specification constrains; the remaining fields are
opaque chain data never touched by this component (see module comment). -/
structure Params where
  Name : String
  Net : Nat
  DefaultPort : String
  Checkpoints : List Checkpoint
  PubKeyHashAddrID : Nat
  ScriptHashAddrID : Nat
  PrivateKeyID : Nat
  StakingKeyID : Nat
  WitnessPubKeyHashAddrID : Nat
  WitnessScriptHashAddrID : Nat
  HDPrivateKeyID : Byte4
  HDPublicKeyID : Byte4
  HDCoinType : Nat
deriving DecidableEq

/-- The error values of params.go lines 548-562:
`ErrDuplicateNet`, `ErrInvalidHDKeyID`, `ErrUnknownHDKeyID`. -/
inductive RegError where
  | duplicateNet
  | invalidHDKeyID
  | unknownHDKeyID
deriving DecidableEq

/-- The package-level registry state (params.go lines 564-570). -/
structure Registry where
  registeredNets : List Nat
  pubKeyHashAddrIDs : List Nat
  scriptHashAddrIDs : List Nat
  stakingHashAddrIDs : List Nat
  hdPrivToPubKeyIDs : List (Byte4 × List Nat)
deriving DecidableEq

/-- The state at package load, before `init` runs: all maps empty. -/
def emptyRegistry : Registry :=
  { registeredNets := []
    pubKeyHashAddrIDs := []
    scriptHashAddrIDs := []
    stakingHashAddrIDs := []
    hdPrivToPubKeyIDs := [] }

/-- First-match association-list lookup, modelling Go map indexing of
`hdPrivToPubKeyIDs`. -/
def assocFind (k : Byte4) : List (Byte4 × List Nat) → Option (List Nat)
  | [] => none
  | (k2, v) :: rest => if k2 = k then some v else assocFind k rest

/-- RegisterHDKeyID (params.go lines 624-634): rejects inputs whose
length is not 4, otherwise copies the private id into a `[4]byte` key
and assigns the map entry (overwriting any previous one). -/
def RegisterHDKeyID (st : Registry) (hdPublicKeyID hdPrivateKeyID : List Nat) :
    Option RegError × Registry :=
  if hdPublicKeyID.length ≠ 4 ∨ hdPrivateKeyID.length ≠ 4 then
    (some RegError.invalidHDKeyID, st)
  else
    (none,
     { st with hdPrivToPubKeyIDs :=
        (toByte4 hdPrivateKeyID, hdPublicKeyID) :: st.hdPrivToPubKeyIDs })

/-- Register (params.go lines 586-601): duplicate-magic check, then the
three prefix-set inserts and the magic insert, then `RegisterHDKeyID` on
the two `[4]byte` fields sliced to `[]byte`. -/
def Register (st : Registry) (params : Params) : Option RegError × Registry :=
  if params.Net ∈ st.registeredNets then
    (some RegError.duplicateNet, st)
  else
    let st1 :=
      { st with
        registeredNets := params.Net :: st.registeredNets
        pubKeyHashAddrIDs := params.PubKeyHashAddrID :: st.pubKeyHashAddrIDs
        scriptHashAddrIDs := params.ScriptHashAddrID :: st.scriptHashAddrIDs
        stakingHashAddrIDs := params.StakingKeyID :: st.stakingHashAddrIDs }
    RegisterHDKeyID st1 params.HDPublicKeyID.toList params.HDPrivateKeyID.toList

/-- mustRegister (params.go lines 603-607): `none` models the panic
("failed to register network"), `some` the normal return. -/
def mustRegister (st : Registry) (params : Params) : Option Registry :=
  match Register st params with
  | (some _, _) => none
  | (none, st2) => some st2

/-- IsPubKeyHashAddrID (params.go lines 609-612). -/
def IsPubKeyHashAddrID (st : Registry) (id : Nat) : Bool :=
  st.pubKeyHashAddrIDs.contains id

/-- IStakingAddrID (params.go lines 614-617). -/
def IStakingAddrID (st : Registry) (id : Nat) : Bool :=
  st.stakingHashAddrIDs.contains id

/-- IsScriptHashAddrID (params.go lines 619-622). -/
def IsScriptHashAddrID (st : Registry) (id : Nat) : Bool :=
  st.scriptHashAddrIDs.contains id

/-- HDPrivateKeyToPublicKeyID (params.go lines 636-649). -/
def HDPrivateKeyToPublicKeyID (st : Registry) (id : List Nat) :
    Except RegError (List Nat) :=
  if id.length ≠ 4 then
    Except.error RegError.unknownHDKeyID
  else
    match assocFind (toByte4 id) st.hdPrivToPubKeyIDs with
    | none => Except.error RegError.unknownHDKeyID
    | some pubBytes => Except.ok pubBytes

/-- Local constant `MainNet` (params.go line 235). -/
def MainNet : Nat := 0xe9fdc490

/-- Local constant `TestNet3` (params.go line 238); declared but the
built-in tables use the wire-package constants below instead. -/
def TestNet3 : Nat := 0xba657645

/-- Constant `wire.TestNet` of the btcd dependency (the regression-test
network magic). -/
def wireTestNet : Nat := 0xdab5bffa

/-- Constant `wire.TestNet3` of the btcd dependency (the version-3 test
network magic). -/
def wireTestNet3 : Nat := 0x0709110b

/-- MainNetParams (params.go lines 242-348), restricted to the embedded
fields; values are the literals of the source table. -/
def MainNetParams : Params :=
  { Name := "main"
    Net := MainNet
    DefaultPort := "46462"
    Checkpoints :=
      [⟨0, "0000000069e244f73d78e8fd29ba2fd2ed618bd6fa2ee92559f542fdb26e7c1d"⟩]
    PubKeyHashAddrID := 139
    ScriptHashAddrID := 19
    PrivateKeyID := 239
    StakingKeyID := 73
    WitnessPubKeyHashAddrID := 0
    WitnessScriptHashAddrID := 0
    HDPrivateKeyID := ⟨0x3a, 0x80, 0x58, 0x37⟩
    HDPublicKeyID := ⟨0x3a, 0x80, 0x61, 0xa0⟩
    HDCoinType := 303 }

/-- RegressionNetParams (params.go lines 353-432); fields not set in the
Go composite literal take the Go zero value. -/
def RegressionNetParams : Params :=
  { Name := "regtest"
    Net := wireTestNet
    DefaultPort := "18444"
    Checkpoints := []
    PubKeyHashAddrID := 139
    ScriptHashAddrID := 19
    PrivateKeyID := 239
    StakingKeyID := 73
    WitnessPubKeyHashAddrID := 0
    WitnessScriptHashAddrID := 0
    HDPrivateKeyID := ⟨0x04, 0x35, 0x83, 0x94⟩
    HDPublicKeyID := ⟨0x04, 0x35, 0x87, 0xcf⟩
    HDCoinType := 1 }

/-- TestNet3Params (params.go lines 437-546); `StakingKeyID` is not set
in the Go composite literal, hence the zero value. -/
def TestNet3Params : Params :=
  { Name := "testnet3"
    Net := wireTestNet3
    DefaultPort := "18333"
    Checkpoints :=
      [⟨546, "000000002a936ca763904c3c35fce2f3556c559c0214345d31b1bcebf76acb70"⟩,
       ⟨100000, "00000000009e2958c15ff9290d571bf9459e93b19765c6801ddeccadbb160a1e"⟩,
       ⟨200000, "0000000000287bffd321963ef05feab753ebe274e1d78b2fd4e2bfe9ad3aa6f2"⟩,
       ⟨300001, "0000000000004829474748f3d1bc8fcf893c88be255e6d7f571c548aff57abf4"⟩,
       ⟨400002, "0000000005e2c73b8ecb82ae2dbc2e8274614ebad7172b53528aba7501f5a089"⟩,
       ⟨500011, "00000000000929f63977fbac92ff570a9bd9e7715401ee96f2848f7b07750b02"⟩,
       ⟨600002, "000000000001f471389afd6ee94dcace5ccc44adc18e8bff402443f034b07240"⟩,
       ⟨700000, "000000000000406178b12a4dea3b27e13b3c4fe4510994fd667d7c1e6a3f4dc1"⟩,
       ⟨800010, "000000000017ed35296433190b6829db01e657d80631d43f5983fa403bfdb4c1"⟩,
       ⟨900000, "0000000000356f8d8924556e765b7a94aaebc6b5c8685dcfa2b1ee8b41acd89b"⟩,
       ⟨1000007, "00000000001ccb893d8a1f25b70ad173ce955e5f50124261bbbc50379a612ddf"⟩,
       ⟨1100007, "00000000000abc7b2cd18768ab3dee20857326a818d1946ed6796f42d66dd1e8"⟩,
       ⟨1200007, "00000000000004f2dc41845771909db57e04191714ed8c963f7e56713a7b6cea"⟩,
       ⟨1300007, "0000000072eab69d54df75107c052b26b0395b44f77578184293bf1bb1dbd9fa"⟩]
    PubKeyHashAddrID := 0x6f
    ScriptHashAddrID := 0xc4
    PrivateKeyID := 0xef
    StakingKeyID := 0
    WitnessPubKeyHashAddrID := 0x03
    WitnessScriptHashAddrID := 0x28
    HDPrivateKeyID := ⟨0x04, 0x35, 0x83, 0x94⟩
    HDPublicKeyID := ⟨0x04, 0x35, 0x87, 0xcf⟩
    HDCoinType := 1 }

/-- The state after a successful run of `init` (params.go lines 666-671):
the three built-ins registered in source order. -/
def initState : Registry :=
  (Register (Register (Register emptyRegistry MainNetParams).2
    TestNet3Params).2 RegressionNetParams).2

/-- The package `init` function (params.go lines 666-671) as a whole:
`none` models an aborted startup (a `mustRegister` panic). -/
def initRun : Option Registry :=
  (mustRegister emptyRegistry MainNetParams).bind fun s1 =>
    (mustRegister s1 TestNet3Params).bind fun s2 =>
      mustRegister s2 RegressionNetParams

/-- One externally invokable registration call. -/
inductive RegOp where
  | register (p : Params)
  | registerHD (pub priv : List Nat)

/-- Effect of one call on the registry. -/
def applyOp (st : Registry) : RegOp → Option RegError × Registry
  | RegOp.register p => Register st p
  | RegOp.registerHD pub priv => RegisterHDKeyID st pub priv

/-- Final state after a sequence of calls. -/
def runOps (st : Registry) : List RegOp → Registry
  | [] => st
  | op :: rest => runOps (applyOp st op).2 rest

/-- The parameter sets whose `Register` call succeeded along a call
sequence, in call order. -/
def successfulRegisters (st : Registry) : List RegOp → List Params
  | [] => []
  | op :: rest =>
    match op with
    | RegOp.register p =>
      match Register st p with
      | (none, st2) => p :: successfulRegisters st2 rest
      | (some _, st2) => successfulRegisters st2 rest
    | RegOp.registerHD pub priv =>
      successfulRegisters (RegisterHDKeyID st pub priv).2 rest

/-- The `[4]byte` key that a call inserts into `hdPrivToPubKeyIDs` when
it reaches the map assignment. -/
def RegOp.hdKey : RegOp → Byte4
  | RegOp.register p => p.HDPrivateKeyID
  | RegOp.registerHD _ priv => toByte4 priv

/-- Strict increase of checkpoint heights from first to last. -/
def heightsStrictlyIncreasing : List Checkpoint → Bool
  | [] => true
  | [_] => true
  | a :: b :: rest => a.Height < b.Height && heightsStrictlyIncreasing (b :: rest)

/-! Helper lemmas shared by the claim theorems. -/

theorem contains_iff_mem (l : List Nat) (b : Nat) : l.contains b = true ↔ b ∈ l := by
  simp [List.contains]

theorem toByte4_toList (b : Byte4) : toByte4 b.toList = b := rfl

theorem register_dup (st : Registry) (p : Params) (h : p.Net ∈ st.registeredNets) :
    Register st p = (some RegError.duplicateNet, st) := by
  unfold Register
  rw [if_pos h]

theorem register_not_dup (st : Registry) (p : Params) (h : p.Net ∉ st.registeredNets) :
    Register st p =
      (none,
       { registeredNets := p.Net :: st.registeredNets
         pubKeyHashAddrIDs := p.PubKeyHashAddrID :: st.pubKeyHashAddrIDs
         scriptHashAddrIDs := p.ScriptHashAddrID :: st.scriptHashAddrIDs
         stakingHashAddrIDs := p.StakingKeyID :: st.stakingHashAddrIDs
         hdPrivToPubKeyIDs :=
           (p.HDPrivateKeyID, p.HDPublicKeyID.toList) :: st.hdPrivToPubKeyIDs }) := by
  unfold Register RegisterHDKeyID
  rw [if_neg h, if_neg]
  · simp [toByte4_toList]
  · simp [Byte4.toList]

theorem registerHD_fields (st : Registry) (pub priv : List Nat) :
    ((RegisterHDKeyID st pub priv).2).registeredNets = st.registeredNets ∧
    ((RegisterHDKeyID st pub priv).2).pubKeyHashAddrIDs = st.pubKeyHashAddrIDs ∧
    ((RegisterHDKeyID st pub priv).2).scriptHashAddrIDs = st.scriptHashAddrIDs ∧
    ((RegisterHDKeyID st pub priv).2).stakingHashAddrIDs = st.stakingHashAddrIDs := by
  unfold RegisterHDKeyID
  split <;> simp

theorem hdResolve_ok_iff (st : Registry) (priv pub : List Nat) :
    HDPrivateKeyToPublicKeyID st priv = Except.ok pub ↔
      priv.length = 4 ∧ assocFind (toByte4 priv) st.hdPrivToPubKeyIDs = some pub := by
  unfold HDPrivateKeyToPublicKeyID
  split
  · simp_all
  · rename_i hlen
    cases hfind : assocFind (toByte4 priv) st.hdPrivToPubKeyIDs <;> simp_all

/-- C1: after a successful Register call, the magic is recorded and all
four lookups answer for the registered parameter set. -/
theorem register_success_queries (st : Registry) (p : Params)
    (h : (Register st p).1 = none) :
    p.Net ∈ (Register st p).2.registeredNets ∧
    IsPubKeyHashAddrID (Register st p).2 p.PubKeyHashAddrID = true ∧
    IsScriptHashAddrID (Register st p).2 p.ScriptHashAddrID = true ∧
    IStakingAddrID (Register st p).2 p.StakingKeyID = true ∧
    HDPrivateKeyToPublicKeyID (Register st p).2 p.HDPrivateKeyID.toList =
      Except.ok p.HDPublicKeyID.toList := by
  by_cases hd : p.Net ∈ st.registeredNets
  · rw [register_dup st p hd] at h
    cases h
  · rw [register_not_dup st p hd] at h ⊢
    refine ⟨List.mem_cons_self _ _, ?_, ?_, ?_, ?_⟩
    · simp [IsPubKeyHashAddrID]
    · simp [IsScriptHashAddrID]
    · simp [IStakingAddrID]
    · rw [hdResolve_ok_iff]
      exact ⟨rfl, by simp [assocFind, toByte4_toList]⟩

theorem register_success_queries_witness :
    (Register emptyRegistry MainNetParams).1 = none ∧
    (MainNetParams.Net ∈ (Register emptyRegistry MainNetParams).2.registeredNets ∧
     IsPubKeyHashAddrID (Register emptyRegistry MainNetParams).2
       MainNetParams.PubKeyHashAddrID = true ∧
     IsScriptHashAddrID (Register emptyRegistry MainNetParams).2
       MainNetParams.ScriptHashAddrID = true ∧
     IStakingAddrID (Register emptyRegistry MainNetParams).2
       MainNetParams.StakingKeyID = true ∧
     HDPrivateKeyToPublicKeyID (Register emptyRegistry MainNetParams).2
       MainNetParams.HDPrivateKeyID.toList =
       Except.ok MainNetParams.HDPublicKeyID.toList) :=
  ⟨by decide, register_success_queries emptyRegistry MainNetParams (by decide)⟩

/-- C2: a second Register call with the same magic fails with the
duplicate-network error and leaves the state exactly as the first call
left it. -/
theorem register_same_magic_duplicate (st : Registry) (p1 p2 : Params)
    (hnet : p1.Net = p2.Net) (h : (Register st p1).1 = none) :
    Register (Register st p1).2 p2 =
      (some RegError.duplicateNet, (Register st p1).2) := by
  by_cases hd : p1.Net ∈ st.registeredNets
  · rw [register_dup st p1 hd] at h
    cases h
  · rw [register_not_dup st p1 hd]
    exact register_dup _ p2 (by rw [← hnet]; exact List.mem_cons_self _ _)

theorem register_same_magic_duplicate_witness :
    Register (Register emptyRegistry MainNetParams).2 MainNetParams =
      (some RegError.duplicateNet, (Register emptyRegistry MainNetParams).2) :=
  register_same_magic_duplicate emptyRegistry MainNetParams MainNetParams rfl (by decide)

/-- C3: resolution fails with the unknown-key-version error exactly when
the input length is not 4 or the map holds no entry for the input; in
particular every 3-byte input fails. -/
theorem hdResolve_error_iff (st : Registry) (id : List Nat) :
    (HDPrivateKeyToPublicKeyID st id = Except.error RegError.unknownHDKeyID ↔
      id.length ≠ 4 ∨ assocFind (toByte4 id) st.hdPrivToPubKeyIDs = none) ∧
    (id.length = 3 →
      HDPrivateKeyToPublicKeyID st id = Except.error RegError.unknownHDKeyID) := by
  constructor
  · unfold HDPrivateKeyToPublicKeyID
    split
    · simp_all
    · rename_i hlen
      cases hfind : assocFind (toByte4 id) st.hdPrivToPubKeyIDs <;> simp_all
  · intro h3
    unfold HDPrivateKeyToPublicKeyID
    rw [if_pos (by omega)]

theorem hdResolve_error_iff_witness :
    HDPrivateKeyToPublicKeyID initState [1, 2, 3] =
      Except.error RegError.unknownHDKeyID :=
  (hdResolve_error_iff initState [1, 2, 3]).2 (by decide)

/-- C4: a successful RegisterHDKeyID call makes resolution of the
private version return exactly the paired public version. -/
theorem registerHD_roundtrip (st : Registry) (pub priv : List Nat)
    (h : (RegisterHDKeyID st pub priv).1 = none) :
    HDPrivateKeyToPublicKeyID (RegisterHDKeyID st pub priv).2 priv =
      Except.ok pub := by
  unfold RegisterHDKeyID at h ⊢
  by_cases hlen : pub.length ≠ 4 ∨ priv.length ≠ 4
  · rw [if_pos hlen] at h
    cases h
  · rw [if_neg hlen]
    rw [hdResolve_ok_iff]
    exact ⟨by omega, by simp [assocFind]⟩

theorem registerHD_roundtrip_witness :
    (RegisterHDKeyID emptyRegistry [0x04, 0x35, 0x87, 0xcf]
      [0x04, 0x35, 0x83, 0x94]).1 = none ∧
    HDPrivateKeyToPublicKeyID
      (RegisterHDKeyID emptyRegistry [0x04, 0x35, 0x87, 0xcf]
        [0x04, 0x35, 0x83, 0x94]).2 [0x04, 0x35, 0x83, 0x94] =
      Except.ok [0x04, 0x35, 0x87, 0xcf] :=
  ⟨by decide,
   registerHD_roundtrip emptyRegistry [0x04, 0x35, 0x87, 0xcf]
     [0x04, 0x35, 0x83, 0x94] (by decide)⟩

/-- C10: the only error Register can return is the duplicate-network
error (the invalid-HD-key branch is unreachable since the HD key version
fields are 4-byte arrays), and an erroring call leaves the registry
untouched. -/
theorem register_error_only_duplicate (st : Registry) (p : Params) (e : RegError)
    (h : (Register st p).1 = some e) :
    e = RegError.duplicateNet ∧ (Register st p).2 = st := by
  by_cases hd : p.Net ∈ st.registeredNets
  · rw [register_dup st p hd] at h ⊢
    cases h
    exact ⟨rfl, rfl⟩
  · rw [register_not_dup st p hd] at h
    cases h

theorem register_error_only_duplicate_witness :
    RegError.duplicateNet = RegError.duplicateNet ∧
    (Register initState MainNetParams).2 = initState :=
  register_error_only_duplicate initState MainNetParams RegError.duplicateNet
    (by decide)

theorem mem_pubKeyHash_runOps (ops : List RegOp) (st : Registry) (b : Nat) :
    b ∈ (runOps st ops).pubKeyHashAddrIDs ↔
      b ∈ st.pubKeyHashAddrIDs ∨
        ∃ p ∈ successfulRegisters st ops, p.PubKeyHashAddrID = b := by
  induction ops generalizing st with
  | nil => simp [runOps, successfulRegisters]
  | cons op rest ih =>
    cases op with
    | register p =>
      by_cases hd : p.Net ∈ st.registeredNets
      · rw [runOps, successfulRegisters]
        simp only [applyOp, register_dup st p hd]
        exact ih st
      · rw [runOps, successfulRegisters]
        simp only [applyOp, register_not_dup st p hd]
        rw [ih]
        simp only [List.mem_cons]
        constructor
        · rintro ((heq | hmem) | ⟨q, hq, hP⟩)
          · exact Or.inr ⟨p, Or.inl rfl, heq.symm⟩
          · exact Or.inl hmem
          · exact Or.inr ⟨q, Or.inr hq, hP⟩
        · rintro (hmem | ⟨q, (rfl | hq), hP⟩)
          · exact Or.inl (Or.inr hmem)
          · exact Or.inl (Or.inl hP.symm)
          · exact Or.inr ⟨q, hq, hP⟩
    | registerHD pub priv =>
      rw [runOps, successfulRegisters]
      simp only [applyOp]
      rw [ih, (registerHD_fields st pub priv).2.1]

/-- C5: over every state reachable from the empty registry by Register
and RegisterHDKeyID calls, the public-key-hash query answers true
exactly for the prefixes declared by the successfully registered
parameter sets; in the startup state 0x6f is registered and 0x00 is not. -/
theorem isPubKeyHash_iff_registered :
    (∀ (ops : List RegOp) (b : Nat),
      IsPubKeyHashAddrID (runOps emptyRegistry ops) b = true ↔
        ∃ p ∈ successfulRegisters emptyRegistry ops, p.PubKeyHashAddrID = b) ∧
    IsPubKeyHashAddrID initState 0x6f = true ∧
    IsPubKeyHashAddrID initState 0x00 = false := by
  refine ⟨fun ops b => ?_, by decide, by decide⟩
  rw [IsPubKeyHashAddrID, contains_iff_mem, mem_pubKeyHash_runOps]
  simp [emptyRegistry]

/-- C6 counterexample: the main and regression network tables declare
the same public-key-hash prefix byte, 139. -/
theorem builtin_pubKeyHash_prefix_clash :
    MainNetParams.PubKeyHashAddrID = RegressionNetParams.PubKeyHashAddrID ∧
    MainNetParams.PubKeyHashAddrID = 139 := by decide

/-- C6 amended: the three built-in magics are pairwise distinct, but the
public-key-hash prefixes are not: main and regtest share 139 while
testnet3 declares 0x6f. -/
theorem builtin_magics_distinct :
    (MainNetParams.Net == TestNet3Params.Net) = false ∧
    (MainNetParams.Net == RegressionNetParams.Net) = false ∧
    (TestNet3Params.Net == RegressionNetParams.Net) = false ∧
    MainNetParams.PubKeyHashAddrID = 139 ∧
    RegressionNetParams.PubKeyHashAddrID = 139 ∧
    TestNet3Params.PubKeyHashAddrID = 0x6f ∧
    (TestNet3Params.PubKeyHashAddrID == MainNetParams.PubKeyHashAddrID) = false := by
  decide

/-- C8: the package init registers main, testnet3 and regtest in that
order, every step succeeds, and the abort (panic) branch of
mustRegister is not taken. -/
theorem init_registers_builtins :
    (Register emptyRegistry MainNetParams).1 = none ∧
    (Register (Register emptyRegistry MainNetParams).2 TestNet3Params).1 = none ∧
    (Register (Register (Register emptyRegistry MainNetParams).2
      TestNet3Params).2 RegressionNetParams).1 = none ∧
    initRun = some initState := by decide

/-- C9: the checkpoint heights of each built-in table strictly increase
from first to last (the regtest list is empty). -/
theorem builtin_checkpoints_increasing :
    heightsStrictlyIncreasing MainNetParams.Checkpoints = true ∧
    heightsStrictlyIncreasing TestNet3Params.Checkpoints = true ∧
    heightsStrictlyIncreasing RegressionNetParams.Checkpoints = true := by decide

/-- C7 counterexample: a second successful RegisterHDKeyID call with the
same private version but a different public version changes the answer
that resolution had already established. -/
theorem hd_mapping_overwritten :
    (RegisterHDKeyID (RegisterHDKeyID emptyRegistry [0, 0, 0, 1] [9, 9, 9, 9]).2
      [0, 0, 0, 2] [9, 9, 9, 9]).1 = none ∧
    HDPrivateKeyToPublicKeyID
      (RegisterHDKeyID emptyRegistry [0, 0, 0, 1] [9, 9, 9, 9]).2 [9, 9, 9, 9] =
      Except.ok [0, 0, 0, 1] ∧
    HDPrivateKeyToPublicKeyID
      (RegisterHDKeyID (RegisterHDKeyID emptyRegistry [0, 0, 0, 1] [9, 9, 9, 9]).2
        [0, 0, 0, 2] [9, 9, 9, 9]).2 [9, 9, 9, 9] = Except.ok [0, 0, 0, 2] ∧
    (([0, 0, 0, 2] : List Nat) == [0, 0, 0, 1]) = false := by decide

/-- C7 amended: the three prefix-membership answers are monotonic under
every further call, and a resolved HD mapping is preserved by every
further call whose inserted private-version key differs from it; a call
re-registering the same private version may overwrite the mapping. -/
theorem registration_monotonic_amended :
    (∀ (st : Registry) (op : RegOp) (b : Nat),
      IsPubKeyHashAddrID st b = true → IsPubKeyHashAddrID (applyOp st op).2 b = true) ∧
    (∀ (st : Registry) (op : RegOp) (b : Nat),
      IsScriptHashAddrID st b = true → IsScriptHashAddrID (applyOp st op).2 b = true) ∧
    (∀ (st : Registry) (op : RegOp) (b : Nat),
      IStakingAddrID st b = true → IStakingAddrID (applyOp st op).2 b = true) ∧
    (∀ (st : Registry) (op : RegOp) (priv pub : List Nat),
      HDPrivateKeyToPublicKeyID st priv = Except.ok pub →
      op.hdKey ≠ toByte4 priv →
      HDPrivateKeyToPublicKeyID (applyOp st op).2 priv = Except.ok pub) := by
  have hmem : ∀ (l : List Nat) (x b : Nat),
      l.contains b = true → (x :: l).contains b = true := by
    intro l x b h
    rw [contains_iff_mem] at h ⊢
    exact List.mem_cons_of_mem _ h
  refine ⟨?_, ?_, ?_, ?_⟩
  · intro st op b h
    cases op with
    | register p =>
      show IsPubKeyHashAddrID (Register st p).2 b = true
      by_cases hd : p.Net ∈ st.registeredNets
      · rw [register_dup st p hd]
        exact h
      · rw [register_not_dup st p hd]
        exact hmem _ _ _ h
    | registerHD pub priv =>
      show IsPubKeyHashAddrID (RegisterHDKeyID st pub priv).2 b = true
      rw [IsPubKeyHashAddrID, (registerHD_fields st pub priv).2.1]
      exact h
  · intro st op b h
    cases op with
    | register p =>
      show IsScriptHashAddrID (Register st p).2 b = true
      by_cases hd : p.Net ∈ st.registeredNets
      · rw [register_dup st p hd]
        exact h
      · rw [register_not_dup st p hd]
        exact hmem _ _ _ h
    | registerHD pub priv =>
      show IsScriptHashAddrID (RegisterHDKeyID st pub priv).2 b = true
      rw [IsScriptHashAddrID, (registerHD_fields st pub priv).2.2.1]
      exact h
  · intro st op b h
    cases op with
    | register p =>
      show IStakingAddrID (Register st p).2 b = true
      by_cases hd : p.Net ∈ st.registeredNets
      · rw [register_dup st p hd]
        exact h
      · rw [register_not_dup st p hd]
        exact hmem _ _ _ h
    | registerHD pub priv =>
      show IStakingAddrID (RegisterHDKeyID st pub priv).2 b = true
      rw [IStakingAddrID, (registerHD_fields st pub priv).2.2.2]
      exact h
  · intro st op priv pub h hk
    rw [hdResolve_ok_iff] at h
    obtain ⟨hlen, hfind⟩ := h
    rw [hdResolve_ok_iff]
    refine ⟨hlen, ?_⟩
    cases op with
    | register p =>
      simp only [RegOp.hdKey] at hk
      by_cases hd : p.Net ∈ st.registeredNets
      · rw [applyOp, register_dup st p hd]
        exact hfind
      · rw [applyOp, register_not_dup st p hd]
        simp only [assocFind, if_neg hk]
        exact hfind
    | registerHD pub2 priv2 =>
      simp only [RegOp.hdKey] at hk
      rw [applyOp, RegisterHDKeyID]
      split
      · exact hfind
      · simp only [assocFind, if_neg hk]
        exact hfind

theorem registration_monotonic_amended_witness :
    IsPubKeyHashAddrID
      (applyOp initState (RegOp.registerHD [1, 2, 3, 4] [5, 6, 7, 8])).2 0x6f = true ∧
    HDPrivateKeyToPublicKeyID
      (applyOp initState (RegOp.registerHD [1, 2, 3, 4] [5, 6, 7, 8])).2
      [0x3a, 0x80, 0x58, 0x37] = Except.ok [0x3a, 0x80, 0x61, 0xa0] :=
  ⟨registration_monotonic_amended.1 initState
     (RegOp.registerHD [1, 2, 3, 4] [5, 6, 7, 8]) 0x6f (by decide),
   registration_monotonic_amended.2.2.2 initState
     (RegOp.registerHD [1, 2, 3, 4] [5, 6, 7, 8])
     [0x3a, 0x80, 0x58, 0x37] [0x3a, 0x80, 0x61, 0xa0] (by decide) (by decide)⟩
